import Mathlib

/-!
Verification of the boxing-match simulation core: the `Boxer` value object
(`boxing/models/boxers_model.py`) and the `RingModel` state machine
(`boxing/models/ring_model.py`).

The shallow embedding below translates the Python source:
* Python `int` becomes `ℤ`, `float` becomes `ℚ` where the arithmetic is exact
  (skill scores, reach), and `ℝ` for the logistic transform `1/(1+e^(-delta))`;
* raised exceptions become `Except BoxingError`;
* the external collaborators (the SQLite-backed stats repository and the
  random-fraction source) are parameters: a repository oracle
  `StatsRepo : ℤ → String → Except BoxingError Unit` and a drawn number `r : ℝ`.
-/

namespace Boxing

/-- Exception taxonomy of the Python source: `ValueError`, `TypeError`, and
`sqlite3.Error` (storage failures surfaced by the repository). -/
inductive BoxingError
  | valueError (msg : String)
  | typeError (msg : String)
  | sqliteError (msg : String)
  deriving DecidableEq, Repr

/-- The `Boxer` dataclass fields (`boxers_model.py` lines 14-22).  `weight_class`
is the derived field that `__post_init__` assigns. -/
structure Boxer where
  id : ℤ
  name : String
  weight : ℤ
  height : ℤ
  reach : ℚ
  age : ℤ
  weight_class : String
  deriving DecidableEq, Repr

/-- `get_weight_class` (`boxers_model.py` lines 283-315): first a
non-negative-integer check, then descending thresholds 203/166/133/125; a
weight below 125 raises `ValueError`. -/
def get_weight_class (weight : ℤ) : Except BoxingError String :=
  if weight < 0 then
    .error (.valueError "Invalid Weight. Must be a non-negative integer.")
  else if 203 ≤ weight then .ok "HEAVYWEIGHT"
  else if 166 ≤ weight then .ok "MIDDLEWEIGHT"
  else if 133 ≤ weight then .ok "LIGHTWEIGHT"
  else if 125 ≤ weight then .ok "FEATHERWEIGHT"
  else .error (.valueError "Invalid weight. Weight must be at least 125.")

/-- Construction of a `Boxer` (dataclass constructor followed by
`__post_init__`, `boxers_model.py` lines 14-26): whatever `weight_class`
argument was passed (`wc0`) is ignored, because `__post_init__` overwrites the
field with `get_weight_class(self.weight)`; a weight rejected by
`get_weight_class` makes construction raise. -/
def mkBoxer (id : ℤ) (name : String) (weight height : ℤ) (reach : ℚ) (age : ℤ)
    (_wc0 : String) : Except BoxingError Boxer :=
  match get_weight_class weight with
  | .error e => .error e
  | .ok wc => .ok ⟨id, name, weight, height, reach, age, wc⟩

/-- `create_boxer` (`boxers_model.py` lines 29-90): the four argument checks
run in order, each raising `ValueError` synchronously; only when all pass does
the function enter the persistence block, modelled by the external oracle
`db` (duplicate-name check, INSERT, commit). -/
def create_boxer (db : String → Except BoxingError Unit) (name : String)
    (weight height : ℤ) (reach : ℚ) (age : ℤ) : Except BoxingError Unit :=
  if weight < 125 then
    .error (.valueError s!"Invalid weight: {weight}. Must be at least 125.")
  else if height ≤ 0 then
    .error (.valueError s!"Invalid height: {height}. Must be greater than 0.")
  else if reach ≤ 0 then
    .error (.valueError s!"Invalid reach: {reach}. Must be greater than 0.")
  else if ¬ (18 ≤ age ∧ age ≤ 40) then
    .error (.valueError s!"Invalid age: {age}. Must be between 18 and 40.")
  else
    db name

/-- The repository oracle standing for `update_boxer_stats`'s database block:
given a boxer id and a result string it either succeeds or fails with a
storage / not-found error. -/
abbrev StatsRepo := ℤ → String → Except BoxingError Unit

/-- `update_boxer_stats` (`boxers_model.py` lines 318-358): validates the
result string and the id before any database access, then defers to the
repository oracle. -/
def update_boxer_stats (repo : StatsRepo) (boxer_id : ℤ) (result : String) :
    Except BoxingError Unit :=
  if result ≠ "win" ∧ result ≠ "loss" then
    .error (.valueError s!"Invalid result: {result}. Expected win or loss.")
  else if boxer_id < 0 then
    .error (.valueError s!"Invalid boxer ID: {boxer_id}. Must be a non-negative integer.")
  else
    repo boxer_id result

/-- The age modifier of `RingModel.get_fighting_skill`
(`ring_model.py` line 131): `-1 if age < 25 else (-2 if age > 35 else 0)`. -/
def age_modifier (age : ℤ) : ℚ :=
  if age < 25 then -1 else if 35 < age then -2 else 0

/-- `RingModel.get_fighting_skill` (`ring_model.py` lines 120-135):
`weight * len(name) + reach / 10 + age_modifier`. -/
def get_fighting_skill (b : Boxer) : ℚ :=
  (b.weight : ℚ) * (b.name.length : ℚ) + b.reach / 10 + age_modifier b.age

/-- `delta = abs(skill_1 - skill_2)` (`ring_model.py` line 51). -/
def fight_delta (b1 b2 : Boxer) : ℚ :=
  |get_fighting_skill b1 - get_fighting_skill b2|

/-- `normalized_delta = 1 / (1 + math.e ** (-delta))` (`ring_model.py`
line 52), the logistic transform; taken over the reals. -/
noncomputable def normalized_delta (d : ℚ) : ℝ :=
  1 / (1 + Real.exp (-(d : ℝ)))

/-- `RingModel.clear_ring` (`ring_model.py` lines 75-83): an early return when
the ring is already empty, otherwise the list is cleared. -/
def clear_ring (ring : List Boxer) : List Boxer :=
  if ring.isEmpty then ring else []

/-- A dynamically-typed Python argument: either an actual `Boxer` or a value
of some other runtime type (carrying that type's name). -/
inductive PyValue
  | boxer (b : Boxer)
  | other (typeName : String)

/-- `RingModel.enter_ring` (`ring_model.py` lines 85-104): `isinstance` check
first (raising `TypeError`), then the capacity check (raising `ValueError`
when two boxers are already present), then `append`. -/
def enter_ring (ring : List Boxer) (v : PyValue) : Except BoxingError (List Boxer) :=
  match v with
  | .other t => .error (.typeError s!"Invalid type: Expected Boxer, got {t}")
  | .boxer b =>
      if 2 ≤ ring.length then .error (.valueError "Ring is full, cannot add more boxers.")
      else .ok (ring ++ [b])

/-- The tail of `RingModel.fight` after the winner is chosen
(`ring_model.py` lines 67-73): report the win, then the loss, then clear the
ring; a raised error propagates immediately, leaving the ring as it was. -/
def fight_settle (ring : List Boxer) (winner loser : Boxer) (repo : StatsRepo) :
    Except BoxingError String × List Boxer :=
  match update_boxer_stats repo winner.id "win" with
  | .error e => (.error e, ring)
  | .ok _ =>
    match update_boxer_stats repo loser.id "loss" with
    | .error e => (.error e, ring)
    | .ok _ => (.ok winner.name, clear_ring ring)

/-- `RingModel.fight` (`ring_model.py` lines 24-73).  The drawn random
fraction `r` and the stats repository are the two external collaborators,
passed as arguments.  Fewer than two occupants raises before either
collaborator is consulted; with exactly two, the winner is `boxer_1` (the
first-entered) when `r < normalized_delta` and `boxer_2` otherwise; a ring of
more than two occupants would fail Python's two-name unpacking. -/
noncomputable def fight (ring : List Boxer) (r : ℝ) (repo : StatsRepo) :
    Except BoxingError String × List Boxer :=
  if ring.length < 2 then
    (.error (.valueError "There must be two boxers to start a fight."), ring)
  else
    match ring with
    | b1 :: b2 :: [] =>
        if r < normalized_delta (fight_delta b1 b2) then
          fight_settle (b1 :: b2 :: []) b1 b2 repo
        else
          fight_settle (b1 :: b2 :: []) b2 b1 repo
    | _ => (.error (.valueError "too many values to unpack (expected 2)"), ring)

/-- One client-visible operation on a `RingModel` instance. -/
inductive RingOp
  | enter (v : PyValue)
  | clear
  | fight (r : ℝ) (repo : StatsRepo)

/-- The state reached after one operation: a raised exception leaves the
ring as it stood when the exception was raised. -/
noncomputable def applyOp (ring : List Boxer) : RingOp → List Boxer
  | .enter v =>
      match enter_ring ring v with
      | .ok ring2 => ring2
      | .error _ => ring
  | .clear => clear_ring ring
  | .fight r repo => (Boxing.fight ring r repo).2

/-- A repository oracle on which every stats update succeeds. -/
def okRepo : StatsRepo := fun _ _ => .ok ()

/-- A repository oracle on which every stats update fails with a storage
error (the database is unavailable). -/
def errRepo : StatsRepo := fun _ _ => .error (.sqliteError "database unavailable")

/-- A sample boxer: 6-letter name, weight 160, reach 72.0, age 25. -/
def rocky : Boxer := ⟨1, "Rocky1", 160, 70, 72, 25, "LIGHTWEIGHT"⟩

/-- A second sample boxer with the same skill-relevant attributes as
`rocky` but a different name (also 6 letters) and id. -/
def apollo : Boxer := ⟨2, "Apollo", 160, 70, 72, 25, "LIGHTWEIGHT"⟩

/-- Ordering of the four weight classes, lightest band first. -/
def classRank : String → ℕ
  | "FEATHERWEIGHT" => 0
  | "LIGHTWEIGHT" => 1
  | "MIDDLEWEIGHT" => 2
  | "HEAVYWEIGHT" => 3
  | _ => 0

lemma clear_ring_eq_nil (ring : List Boxer) : clear_ring ring = [] := by
  cases ring <;> rfl

lemma normalized_delta_zero : normalized_delta 0 = 1 / 2 := by
  unfold normalized_delta
  norm_num [Real.exp_zero]

lemma gwc_cases (w : ℤ) (c : String) (h : get_weight_class w = .ok c) :
    (c = "HEAVYWEIGHT" ∧ 203 ≤ w) ∨ (c = "MIDDLEWEIGHT" ∧ 166 ≤ w ∧ w < 203) ∨
    (c = "LIGHTWEIGHT" ∧ 133 ≤ w ∧ w < 166) ∨ (c = "FEATHERWEIGHT" ∧ 125 ≤ w ∧ w < 133) := by
  unfold get_weight_class at h
  split_ifs at h with h0 h1 h2 h3 h4 <;> simp at h
  · exact Or.inl ⟨h.symm, h1⟩
  · exact Or.inr (Or.inl ⟨h.symm, h2, by omega⟩)
  · exact Or.inr (Or.inr (Or.inl ⟨h.symm, h3, by omega⟩))
  · exact Or.inr (Or.inr (Or.inr ⟨h.symm, h4, by omega⟩))

lemma gwc_below_error (w : ℤ) (h : w < 125) :
    ∃ msg, get_weight_class w = .error (.valueError msg) := by
  unfold get_weight_class
  split_ifs with h0 h1 h2 h3 h4
  · exact ⟨_, rfl⟩
  · omega
  · omega
  · omega
  · omega
  · exact ⟨_, rfl⟩

lemma update_ok (repo : StatsRepo) (hrepo : ∀ i s, repo i s = Except.ok ())
    (i : ℤ) (hi : 0 ≤ i) (s : String) (hs : s = "win" ∨ s = "loss") :
    update_boxer_stats repo i s = Except.ok () := by
  unfold update_boxer_stats
  rcases hs with rfl | rfl <;> simp [not_lt.mpr hi, hrepo]

lemma fight_settle_ok (ring : List Boxer) (w l : Boxer) (repo : StatsRepo)
    (hrepo : ∀ i s, repo i s = Except.ok ()) (hw : 0 ≤ w.id) (hl : 0 ≤ l.id) :
    fight_settle ring w l repo = (Except.ok w.name, clear_ring ring) := by
  unfold fight_settle
  rw [update_ok repo hrepo w.id hw "win" (Or.inl rfl),
      update_ok repo hrepo l.id hl "loss" (Or.inr rfl)]

lemma fight_settle_spec (ring : List Boxer) (w l : Boxer) (repo : StatsRepo) :
    ((fight_settle ring w l repo).1.isOk = true ∧ (fight_settle ring w l repo).2 = clear_ring ring)
      ∨ ((fight_settle ring w l repo).1.isOk = false ∧ (fight_settle ring w l repo).2 = ring) := by
  unfold fight_settle
  rcases h1 : update_boxer_stats repo w.id "win" with e | u
  · exact Or.inr ⟨rfl, rfl⟩
  · rcases h2 : update_boxer_stats repo l.id "loss" with e | u
    · exact Or.inr ⟨rfl, rfl⟩
    · exact Or.inl ⟨rfl, rfl⟩

lemma skill_rocky_apollo : fight_delta rocky apollo = 0 := by
  have h1 : "Rocky1".length = 6 := rfl
  have h2 : "Apollo".length = 6 := rfl
  unfold fight_delta get_fighting_skill age_modifier rocky apollo
  rw [h1, h2]
  norm_num

lemma nd_rocky_apollo : normalized_delta (fight_delta rocky apollo) = 1 / 2 := by
  rw [skill_rocky_apollo, normalized_delta_zero]

lemma fight_two_unfold (b1 b2 : Boxer) (r : ℝ) (repo : StatsRepo) :
    fight [b1, b2] r repo =
      if r < normalized_delta (fight_delta b1 b2) then fight_settle [b1, b2] b1 b2 repo
      else fight_settle [b1, b2] b2 b1 repo := rfl

lemma fight_eval_ok : fight [rocky, apollo] 0 okRepo = (Except.ok "Rocky1", []) := by
  have h : (0 : ℝ) < normalized_delta (fight_delta rocky apollo) := by
    rw [nd_rocky_apollo]; norm_num
  rw [fight_two_unfold, if_pos h,
      fight_settle_ok [rocky, apollo] rocky apollo okRepo (fun _ _ => rfl) (by decide) (by decide)]
  rfl

lemma fight_eval_ok2 : fight [rocky, apollo] 1 okRepo = (Except.ok "Apollo", []) := by
  have h : ¬ (1 : ℝ) < normalized_delta (fight_delta rocky apollo) := by
    rw [nd_rocky_apollo]; norm_num
  rw [fight_two_unfold, if_neg h,
      fight_settle_ok [rocky, apollo] apollo rocky okRepo (fun _ _ => rfl) (by decide) (by decide)]
  rfl

lemma fight_eval_err :
    fight [rocky, apollo] 0 errRepo =
      (Except.error (.sqliteError "database unavailable"), [rocky, apollo]) := by
  have h : (0 : ℝ) < normalized_delta (fight_delta rocky apollo) := by
    rw [nd_rocky_apollo]; norm_num
  rw [fight_two_unfold, if_pos h]
  rfl

/-- C3: `classify(weight)` fails for weights below 125 (negative included),
and otherwise returns, by first match on descending thresholds, HEAVYWEIGHT
for weight ≥ 203, MIDDLEWEIGHT for weight ≥ 166, LIGHTWEIGHT for weight ≥ 133,
FEATHERWEIGHT for weight ≥ 125; the resulting class is monotone-nondecreasing
in the weight. -/
theorem weight_class_bands :
    (∀ w : ℤ, w < 125 → ∃ msg, get_weight_class w = .error (.valueError msg)) ∧
    (∀ w : ℤ, 203 ≤ w → get_weight_class w = .ok "HEAVYWEIGHT") ∧
    (∀ w : ℤ, 166 ≤ w → w < 203 → get_weight_class w = .ok "MIDDLEWEIGHT") ∧
    (∀ w : ℤ, 133 ≤ w → w < 166 → get_weight_class w = .ok "LIGHTWEIGHT") ∧
    (∀ w : ℤ, 125 ≤ w → w < 133 → get_weight_class w = .ok "FEATHERWEIGHT") ∧
    (∀ w1 w2 : ℤ, ∀ c1 c2 : String, w1 ≤ w2 →
      get_weight_class w1 = .ok c1 → get_weight_class w2 = .ok c2 →
      classRank c1 ≤ classRank c2) := by
  refine ⟨gwc_below_error, ?_, ?_, ?_, ?_, ?_⟩
  · intro w hw
    unfold get_weight_class
    split_ifs <;> first | rfl | omega
  · intro w hw hw2
    unfold get_weight_class
    split_ifs <;> first | rfl | omega
  · intro w hw hw2
    unfold get_weight_class
    split_ifs <;> first | rfl | omega
  · intro w hw hw2
    unfold get_weight_class
    split_ifs <;> first | rfl | omega
  · intro w1 w2 c1 c2 hle h1 h2
    rcases gwc_cases w1 c1 h1 with ⟨rfl, hb⟩ | ⟨rfl, hb, hb'⟩ | ⟨rfl, hb, hb'⟩ | ⟨rfl, hb, hb'⟩ <;>
      rcases gwc_cases w2 c2 h2 with ⟨rfl, hc⟩ | ⟨rfl, hc, hc'⟩ | ⟨rfl, hc, hc'⟩ | ⟨rfl, hc, hc'⟩ <;>
      first | decide | omega

/-- C3 witness: the bands evaluated at 124, 203, 166, 133, 125 and the
monotonicity instance between 125 and 210. -/
theorem weight_class_bands_witness :
    (∃ msg, get_weight_class 124 = .error (.valueError msg)) ∧
    get_weight_class 203 = .ok "HEAVYWEIGHT" ∧
    get_weight_class 166 = .ok "MIDDLEWEIGHT" ∧
    get_weight_class 133 = .ok "LIGHTWEIGHT" ∧
    get_weight_class 125 = .ok "FEATHERWEIGHT" ∧
    classRank "FEATHERWEIGHT" ≤ classRank "HEAVYWEIGHT" :=
  ⟨weight_class_bands.1 124 (by decide),
   weight_class_bands.2.1 203 (by decide),
   weight_class_bands.2.2.1 166 (by decide) (by decide),
   weight_class_bands.2.2.2.1 133 (by decide) (by decide),
   weight_class_bands.2.2.2.2.1 125 (by decide) (by decide),
   weight_class_bands.2.2.2.2.2 125 210 "FEATHERWEIGHT" "HEAVYWEIGHT" (by decide) rfl rfl⟩

/-- C4: the fighting skill equals
`weight * len(name) + reach / 10 + age_modifier`, with age modifier -1 below
age 25, -2 above age 35, 0 otherwise; a boxer with weight 160, a 6-character
name, reach 72.0 and age 25 has skill exactly 967.2. -/
theorem fighting_skill_formula :
    (∀ b : Boxer, get_fighting_skill b =
      (b.weight : ℚ) * (b.name.length : ℚ) + b.reach / 10 +
        (if b.age < 25 then -1 else if 35 < b.age then -2 else 0)) ∧
    (∀ b : Boxer, b.weight = 160 → b.name.length = 6 → b.reach = 72 → b.age = 25 →
      get_fighting_skill b = 967.2) := by
  constructor
  · intro b
    rfl
  · intro b h1 h2 h3 h4
    unfold get_fighting_skill age_modifier
    rw [h1, h2, h3, h4]
    norm_num

/-- C4 witness: `rocky` (weight 160, name "Rocky1", reach 72, age 25) has
skill 967.2. -/
theorem fighting_skill_formula_witness : get_fighting_skill rocky = 967.2 :=
  fighting_skill_formula.2 rocky rfl rfl rfl rfl

/-- C7: `clear_ring` succeeds from every state, always yields the empty ring,
and is idempotent. -/
theorem clear_ring_total_and_idempotent :
    (∀ ring : List Boxer, clear_ring ring = []) ∧
    (∀ ring : List Boxer, clear_ring (clear_ring ring) = clear_ring ring) := by
  refine ⟨clear_ring_eq_nil, ?_⟩
  intro ring
  rw [clear_ring_eq_nil ring, clear_ring_eq_nil []]

/-- C8: the skill delta is always nonnegative, and the logistic transform
`1 / (1 + e^(-delta))` lies in [1/2, 1) for every nonnegative delta. -/
theorem delta_nonneg_and_logistic_range :
    (∀ b1 b2 : Boxer, 0 ≤ fight_delta b1 b2) ∧
    (∀ d : ℚ, 0 ≤ d → 1 / 2 ≤ normalized_delta d ∧ normalized_delta d < 1) := by
  constructor
  · intro b1 b2
    exact abs_nonneg _
  · intro d hd
    have hexp_pos : 0 < Real.exp (-(d : ℝ)) := Real.exp_pos _
    have hneg : (-(d : ℝ)) ≤ 0 := by
      have : (0 : ℝ) ≤ (d : ℝ) := by exact_mod_cast hd
      linarith
    have hexp_le : Real.exp (-(d : ℝ)) ≤ 1 := by
      calc Real.exp (-(d : ℝ)) ≤ Real.exp 0 := Real.exp_le_exp.mpr hneg
        _ = 1 := Real.exp_zero
    have hpos : (0 : ℝ) < 1 + Real.exp (-(d : ℝ)) := by linarith
    constructor
    · calc (1 : ℝ) / 2 ≤ 1 / (1 + Real.exp (-(d : ℝ))) :=
            one_div_le_one_div_of_le hpos (by linarith)
        _ = normalized_delta d := rfl
    · show 1 / (1 + Real.exp (-(d : ℝ))) < 1
      rw [div_lt_one hpos]
      linarith

/-- C8 witness: the delta of the sample boxers is nonnegative, and the
logistic transform at delta = 0 lies in [1/2, 1). -/
theorem delta_nonneg_and_logistic_range_witness :
    0 ≤ fight_delta rocky apollo ∧
    (1 / 2 ≤ normalized_delta 0 ∧ normalized_delta 0 < 1) :=
  ⟨delta_nonneg_and_logistic_range.1 rocky apollo,
   delta_nonneg_and_logistic_range.2 0 (by norm_num)⟩

/-- C9: every validation failure of boxer creation (weight < 125,
height ≤ 0, reach ≤ 0, age outside [18,40]) is raised synchronously before the
persistence phase: the result is a `ValueError` and is identical for every
repository oracle, so the repository is never touched. -/
theorem create_boxer_validates_before_persistence (name : String) (weight height : ℤ)
    (reach : ℚ) (age : ℤ)
    (h : weight < 125 ∨ height ≤ 0 ∨ reach ≤ 0 ∨ ¬ (18 ≤ age ∧ age ≤ 40)) :
    ∀ db db2 : String → Except BoxingError Unit,
      create_boxer db name weight height reach age =
        create_boxer db2 name weight height reach age ∧
      ∃ msg, create_boxer db name weight height reach age = .error (.valueError msg) := by
  intro db db2
  unfold create_boxer
  split_ifs with h1 h2 h3 h4
  · exact ⟨rfl, _, rfl⟩
  · exact ⟨rfl, _, rfl⟩
  · exact ⟨rfl, _, rfl⟩
  · rcases h with h | h | h | h
    · exact absurd h h1
    · exact absurd h h2
    · exact absurd h h3
    · exact absurd h4 h
  · exact ⟨rfl, _, rfl⟩

/-- C9 witness: `create_boxer` on the invalid weight 100 returns the same
`ValueError` whether the repository succeeds or is unavailable. -/
theorem create_boxer_validates_before_persistence_witness :
    create_boxer (fun _ => .ok ()) "X" 100 70 72 25 =
      create_boxer (fun _ => .error (.sqliteError "database unavailable")) "X" 100 70 72 25 ∧
    ∃ msg, create_boxer (fun _ => .ok ()) "X" 100 70 72 25 = .error (.valueError msg) :=
  create_boxer_validates_before_persistence "X" 100 70 72 25 (Or.inl (by decide)) _ _

/-- C10: constructing a `Boxer` recomputes `weight_class` from the weight at
construction time (any supplied value is ignored); every successfully
constructed boxer satisfies `125 ≤ weight` and
`weight_class = classify(weight)`; and construction with a weight below 125
(negative included) fails. -/
theorem boxer_constructor_invariant :
    (∀ (id : ℤ) (name : String) (weight height : ℤ) (reach : ℚ) (age : ℤ) (wc0 wc02 : String),
      mkBoxer id name weight height reach age wc0 =
        mkBoxer id name weight height reach age wc02) ∧
    (∀ (id : ℤ) (name : String) (weight height : ℤ) (reach : ℚ) (age : ℤ) (wc0 : String)
        (b : Boxer), mkBoxer id name weight height reach age wc0 = .ok b →
      125 ≤ b.weight ∧ get_weight_class b.weight = .ok b.weight_class) ∧
    (∀ (id : ℤ) (name : String) (weight height : ℤ) (reach : ℚ) (age : ℤ) (wc0 : String),
      weight < 125 → ∃ e, mkBoxer id name weight height reach age wc0 = .error e) := by
  refine ⟨fun _ _ _ _ _ _ _ _ => rfl, ?_, ?_⟩
  · intro id name weight height reach age wc0 b h
    unfold mkBoxer at h
    rcases hg : get_weight_class weight with e | wc <;> rw [hg] at h
    · exact absurd h (by simp)
    · have hb : b = ⟨id, name, weight, height, reach, age, wc⟩ := by
        cases h
        rfl
      subst hb
      refine ⟨?_, hg⟩
      show (125 : ℤ) ≤ weight
      rcases gwc_cases weight wc hg with ⟨_, hb⟩ | ⟨_, hb, _⟩ | ⟨_, hb, _⟩ | ⟨_, hb, _⟩ <;> omega
  · intro id name weight height reach age wc0 hw
    rcases gwc_below_error weight hw with ⟨msg, hm⟩
    unfold mkBoxer
    rw [hm]
    exact ⟨_, rfl⟩

/-- C10 witness: constructing `rocky`'s attributes with a bogus supplied
weight class succeeds with the recomputed class, satisfying the invariant;
constructing with weight 100 fails. -/
theorem boxer_constructor_invariant_witness :
    (125 ≤ rocky.weight ∧ get_weight_class rocky.weight = .ok rocky.weight_class) ∧
    (∃ e, mkBoxer 3 "X" 100 70 72 25 "IGNORED" = .error e) :=
  ⟨boxer_constructor_invariant.2.1 1 "Rocky1" 160 70 72 25 "IGNORED" rocky rfl,
   boxer_constructor_invariant.2.2 3 "X" 100 70 72 25 "IGNORED" (by decide)⟩

/-- C1 counterexample: with both boxers in the ring and a repository on which
the stats update fails, `fight` surfaces the storage error while the ring
still holds both boxers — the ring is NOT cleared, contradicting the claim
that the ring transitions to Empty unconditionally. -/
theorem fight_stats_failure_leaves_ring_cex :
    (fight [rocky, apollo] 0 errRepo).2 = [rocky, apollo] ∧
    (fight [rocky, apollo] 0 errRepo).2 ≠ [] ∧
    (fight [rocky, apollo] 0 errRepo).1 =
      .error (.sqliteError "database unavailable") := by
  rw [fight_eval_err]
  exact ⟨rfl, by simp, rfl⟩

/-- C1 amended: after `fight` on a full ring, the ring is cleared exactly when
both stats updates succeed; when a stats update fails, the error is surfaced
with the ring still holding both boxers (the clear happens only after the two
update calls). -/
theorem fight_clears_ring_iff_stats_updates_succeed (b1 b2 : Boxer) (r : ℝ)
    (repo : StatsRepo) :
    ((fight [b1, b2] r repo).1.isOk = true → (fight [b1, b2] r repo).2 = []) ∧
    ((fight [b1, b2] r repo).1.isOk = false → (fight [b1, b2] r repo).2 = [b1, b2]) := by
  rw [fight_two_unfold]
  rcases lt_or_le r (normalized_delta (fight_delta b1 b2)) with hr | hr
  · rw [if_pos hr]
    rcases fight_settle_spec [b1, b2] b1 b2 repo with ⟨h1, h2⟩ | ⟨h1, h2⟩ <;>
      rw [h1, h2] <;> constructor <;> intro h <;> first | rfl | exact absurd h (by simp)
  · rw [if_neg (not_lt.mpr hr)]
    rcases fight_settle_spec [b1, b2] b2 b1 repo with ⟨h1, h2⟩ | ⟨h1, h2⟩ <;>
      rw [h1, h2] <;> constructor <;> intro h <;> first | rfl | exact absurd h (by simp)

/-- C1 witness: on a repository on which both updates succeed, the fight
result is a success and the ring ends empty. -/
theorem fight_clears_ring_iff_stats_updates_succeed_witness :
    (fight [rocky, apollo] 0 okRepo).2 = [] :=
  (fight_clears_ring_iff_stats_updates_succeed rocky apollo 0 okRepo).1
    (by rw [fight_eval_ok]; rfl)

/-- C2: on a full ring holding `b1` then `b2` in insertion order, with a
repository on which updates succeed, `fight` returns the first-entered boxer's
name when `r < normalized_delta` and the second-entered boxer's name
otherwise — for every pair of boxers, regardless of which has the higher
skill. -/
theorem fight_winner_by_insertion_order (b1 b2 : Boxer) (r : ℝ) (repo : StatsRepo)
    (hid1 : 0 ≤ b1.id) (hid2 : 0 ≤ b2.id)
    (hrepo : ∀ i s, repo i s = Except.ok ()) :
    (r < normalized_delta (fight_delta b1 b2) →
      (fight [b1, b2] r repo).1 = .ok b1.name) ∧
    (¬ r < normalized_delta (fight_delta b1 b2) →
      (fight [b1, b2] r repo).1 = .ok b2.name) := by
  rw [fight_two_unfold]
  constructor
  · intro hr
    rw [if_pos hr, fight_settle_ok [b1, b2] b1 b2 repo hrepo hid1 hid2]
  · intro hr
    rw [if_neg hr, fight_settle_ok [b1, b2] b2 b1 repo hrepo hid2 hid1]

/-- C2 witness: with equal-skill boxers (so the logistic value is 1/2), a
draw of 0 makes the first-entered boxer win and a draw of 1 makes the
second-entered boxer win. -/
theorem fight_winner_by_insertion_order_witness :
    (fight [rocky, apollo] 0 okRepo).1 = .ok "Rocky1" ∧
    (fight [rocky, apollo] 1 okRepo).1 = .ok "Apollo" := by
  have hlt : (0 : ℝ) < normalized_delta (fight_delta rocky apollo) := by
    rw [nd_rocky_apollo]; norm_num
  have hge : ¬ (1 : ℝ) < normalized_delta (fight_delta rocky apollo) := by
    rw [nd_rocky_apollo]; norm_num
  exact ⟨(fight_winner_by_insertion_order rocky apollo 0 okRepo (by decide) (by decide)
            (fun _ _ => rfl)).1 hlt,
         (fight_winner_by_insertion_order rocky apollo 1 okRepo (by decide) (by decide)
            (fun _ _ => rfl)).2 hge⟩

lemma enter_ring_boxer_unfold (ring : List Boxer) (b : Boxer) :
    enter_ring ring (.boxer b) =
      if 2 ≤ ring.length then .error (.valueError "Ring is full, cannot add more boxers.")
      else .ok (ring ++ [b]) := rfl

lemma enter_ring_ok (ring : List Boxer) (b : Boxer) (h : ring.length ≤ 1) :
    enter_ring ring (.boxer b) = .ok (ring ++ [b]) := by
  rw [enter_ring_boxer_unfold, if_neg (by omega)]

lemma enter_ring_full (ring : List Boxer) (b : Boxer) (h : 2 ≤ ring.length) :
    enter_ring ring (.boxer b) = .error (.valueError "Ring is full, cannot add more boxers.") := by
  rw [enter_ring_boxer_unfold, if_pos h]

lemma fight_ring_cases (ring : List Boxer) (r : ℝ) (repo : StatsRepo) :
    (fight ring r repo).2 = ring ∨ (fight ring r repo).2 = [] := by
  match ring with
  | [] => exact Or.inl rfl
  | [b] => exact Or.inl rfl
  | [b1, b2] =>
      rw [fight_two_unfold]
      rcases lt_or_le r (normalized_delta (fight_delta b1 b2)) with hr | hr
      · rw [if_pos hr]
        rcases fight_settle_spec [b1, b2] b1 b2 repo with ⟨_, h2⟩ | ⟨_, h2⟩
        · exact Or.inr (h2.trans rfl)
        · exact Or.inl h2
      · rw [if_neg (not_lt.mpr hr)]
        rcases fight_settle_spec [b1, b2] b2 b1 repo with ⟨_, h2⟩ | ⟨_, h2⟩
        · exact Or.inr (h2.trans rfl)
        · exact Or.inl h2
  | b1 :: b2 :: c :: rest =>
      left
      unfold fight
      rw [if_neg (by simp only [List.length_cons]; omega)]

lemma applyOp_preserves (ring : List Boxer) (op : RingOp) (h : ring.length ≤ 2) :
    (applyOp ring op).length ≤ 2 := by
  cases op with
  | enter v =>
      cases v with
      | other t => exact h
      | boxer b =>
          show (match enter_ring ring (.boxer b) with
                | .ok ring2 => ring2
                | .error _ => ring).length ≤ 2
          by_cases hl : 2 ≤ ring.length
          · rw [enter_ring_full ring b hl]
            exact h
          · rw [enter_ring_ok ring b (by omega)]
            simp only [List.length_append, List.length_cons, List.length_nil]
            omega
  | clear =>
      show (clear_ring ring).length ≤ 2
      rw [clear_ring_eq_nil]
      simp
  | fight r repo =>
      show (fight ring r repo).2.length ≤ 2
      rcases fight_ring_cases ring r repo with h2 | h2 <;> rw [h2] <;> simp [h]

lemma foldl_preserves (ops : List RingOp) :
    ∀ ring : List Boxer, ring.length ≤ 2 → ((ops.foldl applyOp ring).length ≤ 2) := by
  induction ops with
  | nil => exact fun ring h => h
  | cons op rest ih => exact fun ring h => ih _ (applyOp_preserves ring op h)

/-- C5: under any sequence of enter/clear/fight operations starting from the
empty ring, the occupant count never exceeds 2; `enter` appends in call order
when the ring holds at most one occupant, fails with the full-ring error
(leaving the ring unchanged) when it already holds two, and fails with a
`TypeError` when the argument is not a `Boxer`. -/
theorem ring_capacity_invariant :
    (∀ ops : List RingOp, (ops.foldl applyOp []).length ≤ 2) ∧
    (∀ (ring : List Boxer) (b : Boxer), ring.length ≤ 1 →
      enter_ring ring (.boxer b) = .ok (ring ++ [b])) ∧
    (∀ (ring : List Boxer) (b : Boxer), 2 ≤ ring.length →
      enter_ring ring (.boxer b) =
        .error (.valueError "Ring is full, cannot add more boxers.")) ∧
    (∀ (ring : List Boxer) (t : String), enter_ring ring (.other t) =
      .error (.typeError s!"Invalid type: Expected Boxer, got {t}")) :=
  ⟨fun ops => foldl_preserves ops [] (by simp),
   enter_ring_ok, enter_ring_full, fun _ _ => rfl⟩

/-- C5 witness: entering an empty ring appends; a third enter on a full ring
fails; a three-enter sequence still leaves at most two occupants. -/
theorem ring_capacity_invariant_witness :
    enter_ring [] (.boxer rocky) = .ok [rocky] ∧
    enter_ring [rocky, apollo] (.boxer rocky) =
      .error (.valueError "Ring is full, cannot add more boxers.") ∧
    ([RingOp.enter (.boxer rocky), RingOp.enter (.boxer apollo),
      RingOp.enter (.boxer rocky)].foldl applyOp []).length ≤ 2 :=
  ⟨ring_capacity_invariant.2.1 [] rocky (by decide),
   ring_capacity_invariant.2.2.1 [rocky, apollo] rocky (by decide),
   ring_capacity_invariant.1 _⟩

/-- C6: `fight` on a ring with fewer than two occupants fails with the
insufficient-occupants error and leaves the ring unchanged; the outcome is
identical for every random draw and repository oracle, so neither
collaborator is consulted. -/
theorem fight_insufficient_occupants (ring : List Boxer) (r r2 : ℝ)
    (repo repo2 : StatsRepo) (h : ring.length < 2) :
    fight ring r repo =
      (.error (.valueError "There must be two boxers to start a fight."), ring) ∧
    fight ring r repo = fight ring r2 repo2 := by
  have key : ∀ (r3 : ℝ) (repo3 : StatsRepo), fight ring r3 repo3 =
      (.error (.valueError "There must be two boxers to start a fight."), ring) := by
    intro r3 repo3
    unfold fight
    rw [if_pos h]
  exact ⟨key r repo, (key r repo).trans (key r2 repo2).symm⟩

/-- C6 witness: `fight` on the empty ring fails with the
insufficient-occupants error, identically under different draws and
repositories. -/
theorem fight_insufficient_occupants_witness :
    fight [] 0 okRepo =
      (.error (.valueError "There must be two boxers to start a fight."), []) ∧
    fight [] 0 okRepo = fight [] 1 errRepo :=
  fight_insufficient_occupants [] 0 1 okRepo errRepo (by decide)

end Boxing
